import Mathlib

/-!
# Honda OBD1 UAEFI board configuration

A shallow embedding of `board_configuration.cpp`: the two board hooks
(`customBoardDefaultConfiguration`, `customBoardConfigOverrides`), the declared
output table `OUTPUTS` with its accessors, and the hook registration
`setup_custom_board_overrides`.

The hooks mutate the process-wide record `engineConfiguration`; here they are
state-passing functions on a `Firmware` state that holds the record, the two
hook pointers and an instrumentation trace.  The base-family hooks
`setMegaUaefiBoardDefaultConfiguration` / `setMegaUaefiBoardConfigOverrides`
live in the framework, so they are parameters (`MegaUaefi`): arbitrary
functions on the record.  Where a property depends on what the base-family
override does, the base profile is a fixed sequence of stores of constants
(`staticProfile`), as the spec describes it.
-/

namespace HondaObd1

/-! ## Identifier types declared by the framework headers -/

/-- Modelled from the spec: the pin identifier type `Gpio` is declared in the
framework headers (`pch.h`, `hellen_meta.h`), which are not part of the board
file.  It holds the "unassigned" sentinel and every pin identifier that
`board_configuration.cpp` names.  Identifiers are kept symbolic, exactly as the
board file writes them. -/
inductive Gpio where
  | Unassigned
  | A15
  | C10
  | C11
  | MM100_MEGA_UAEFI_INJ1
  | MM100_INJ2
  | MM100_INJ3
  | MM100_INJ4
  | MM100_INJ5
  | MM100_INJ6
  | MM100_INJ7
  | MM100_INJ8
  | MM100_IGN1
  | MM100_IGN2
  | MM100_IGN3
  | MM100_IGN4
  | MM100_IGN5
  | MM100_IGN6
  | MM100_IGN7
  | MM100_IGN8
  | MM100_OUT_PWM1
  | MM100_OUT_PWM2
  | MM100_UART8_TX
  | MM100_UART8_RX
  deriving DecidableEq

/-- Modelled from the spec: the analog channel identifier type, declared in the
framework headers.  `EFI_ADC_NONE` is its "no channel bound" sentinel; the other
members are the logical channel identifiers that the board file names. -/
inductive adc_channel_e where
  | EFI_ADC_NONE
  | MM100_IN_AUX3_ANALOG
  | MM100_IN_AUX4_ANALOG
  | MM100_IN_TPS_ANALOG
  | MM100_IN_MAP1_ANALOG
  | MM100_IN_CLT_ANALOG
  | MM100_IN_IAT_ANALOG
  deriving DecidableEq

/-- Modelled from the spec: the SPI device selector, declared in the framework
headers. -/
inductive spi_device_e where
  | SPI_NONE
  | SPI_DEVICE_1
  | SPI_DEVICE_2
  | SPI_DEVICE_3
  deriving DecidableEq

/-! ## The configuration record -/

/-- The member `lowPressureFuel` (only `hwChannel` is named by the board file). -/
structure linear_sensor_s where
  hwChannel : adc_channel_e
  deriving DecidableEq

/-- The member `idle` (only `solenoidPin` is named by the board file). -/
structure idle_hardware_s where
  solenoidPin : Gpio
  deriving DecidableEq

/-- The member `map.sensor` (only `hwChannel` is named by the board file). -/
structure air_pressure_sensor_config_s where
  hwChannel : adc_channel_e
  deriving DecidableEq

/-- The member `map` (only `sensor` is named by the board file). -/
structure MAP_sensor_config_s where
  sensor : air_pressure_sensor_config_s
  deriving DecidableEq

/-- The members `clt` and `iat` (only `adcChannel` is named by the board file). -/
structure ThermistorConf where
  adcChannel : adc_channel_e
  deriving DecidableEq

/-- The record behind the global pointer `engineConfiguration`.  Every member
that `board_configuration.cpp` reads or writes is a field; C arrays are maps
from the index to the element; `rest` stands for all the members of the
framework record that the board file never names. -/
structure EngineConfiguration (ρ : Type) where
  isSdCardEnabled : Bool
  is_enabled_spi_1 : Bool
  spi1mosiPin : Gpio
  spi1misoPin : Gpio
  spi1sckPin : Gpio
  sdCardCsPin : Gpio
  lowPressureFuel : linear_sensor_s
  enableSoftwareKnock : Bool
  is_enabled_spi_3 : Bool
  spi3misoPin : Gpio
  spi3sckPin : Gpio
  max31855_cs : Nat → Gpio
  max31855spiDevice : spi_device_e
  injectionPins : Nat → Gpio
  ignitionPins : Nat → Gpio
  fuelPumpPin : Gpio
  idle : idle_hardware_s
  tachOutputPin : Gpio
  triggerInputPins : Nat → Gpio
  camInputs : Nat → Gpio
  tps1_1AdcChannel : adc_channel_e
  map : MAP_sensor_config_s
  clt : ThermistorConf
  iat : ThermistorConf
  rest : ρ

/-- One assignment statement `engineConfiguration-><member> = <value>;` of the
board file: the member written (with the index for an array element) and the
value stored. -/
inductive Assign where
  | isSdCardEnabled (v : Bool)
  | is_enabled_spi_1 (v : Bool)
  | spi1mosiPin (v : Gpio)
  | spi1misoPin (v : Gpio)
  | spi1sckPin (v : Gpio)
  | sdCardCsPin (v : Gpio)
  | lowPressureFuel_hwChannel (v : adc_channel_e)
  | enableSoftwareKnock (v : Bool)
  | is_enabled_spi_3 (v : Bool)
  | spi3misoPin (v : Gpio)
  | spi3sckPin (v : Gpio)
  | max31855_cs (i : Nat) (v : Gpio)
  | max31855spiDevice (v : spi_device_e)
  | injectionPins (i : Nat) (v : Gpio)
  | ignitionPins (i : Nat) (v : Gpio)
  | fuelPumpPin (v : Gpio)
  | idle_solenoidPin (v : Gpio)
  | tachOutputPin (v : Gpio)
  | triggerInputPins (i : Nat) (v : Gpio)
  | camInputs (i : Nat) (v : Gpio)
  | tps1_1AdcChannel (v : adc_channel_e)
  | map_sensor_hwChannel (v : adc_channel_e)
  | clt_adcChannel (v : adc_channel_e)
  | iat_adcChannel (v : adc_channel_e)
  deriving DecidableEq

/-- Store into element `i` of a C array. -/
def setAt (arr : Nat → Gpio) (i : Nat) (v : Gpio) : Nat → Gpio :=
  fun j => if j = i then v else arr j

/-- The effect of one assignment statement on the record. -/
def Assign.apply {ρ : Type} (a : Assign) (c : EngineConfiguration ρ) :
    EngineConfiguration ρ :=
  match a with
  | .isSdCardEnabled v => { c with isSdCardEnabled := v }
  | .is_enabled_spi_1 v => { c with is_enabled_spi_1 := v }
  | .spi1mosiPin v => { c with spi1mosiPin := v }
  | .spi1misoPin v => { c with spi1misoPin := v }
  | .spi1sckPin v => { c with spi1sckPin := v }
  | .sdCardCsPin v => { c with sdCardCsPin := v }
  | .lowPressureFuel_hwChannel v =>
      { c with lowPressureFuel := { c.lowPressureFuel with hwChannel := v } }
  | .enableSoftwareKnock v => { c with enableSoftwareKnock := v }
  | .is_enabled_spi_3 v => { c with is_enabled_spi_3 := v }
  | .spi3misoPin v => { c with spi3misoPin := v }
  | .spi3sckPin v => { c with spi3sckPin := v }
  | .max31855_cs i v => { c with max31855_cs := setAt c.max31855_cs i v }
  | .max31855spiDevice v => { c with max31855spiDevice := v }
  | .injectionPins i v => { c with injectionPins := setAt c.injectionPins i v }
  | .ignitionPins i v => { c with ignitionPins := setAt c.ignitionPins i v }
  | .fuelPumpPin v => { c with fuelPumpPin := v }
  | .idle_solenoidPin v => { c with idle := { c.idle with solenoidPin := v } }
  | .tachOutputPin v => { c with tachOutputPin := v }
  | .triggerInputPins i v =>
      { c with triggerInputPins := setAt c.triggerInputPins i v }
  | .camInputs i v => { c with camInputs := setAt c.camInputs i v }
  | .tps1_1AdcChannel v => { c with tps1_1AdcChannel := v }
  | .map_sensor_hwChannel v =>
      { c with map := { c.map with sensor := { c.map.sensor with hwChannel := v } } }
  | .clt_adcChannel v => { c with clt := { c.clt with adcChannel := v } }
  | .iat_adcChannel v => { c with iat := { c.iat with adcChannel := v } }

/-- The value a statement stores, when the member is a boolean feature flag. -/
def Assign.flagValue : Assign → Option Bool
  | .isSdCardEnabled v => some v
  | .is_enabled_spi_1 v => some v
  | .enableSoftwareKnock v => some v
  | .is_enabled_spi_3 v => some v
  | _ => none

/-! ## Procedures, hook pointers and the instrumented state -/

/-- The four procedures involved: the two base-family hooks of the framework
and the two static functions of the board file. -/
inductive Proc where
  | setMegaUaefiBoardDefaultConfiguration
  | setMegaUaefiBoardConfigOverrides
  | customBoardDefaultConfiguration
  | customBoardConfigOverrides
  deriving DecidableEq

/-- What the instrumentation records: entry into a base-family hook, or one
assignment statement executed by the named board function. -/
inductive Event where
  | called (p : Proc)
  | assigned (owner : Proc) (a : Assign)
  deriving DecidableEq

/-- The base-family profile (`mega-uaefi.h`), an external collaborator: its two
hooks as arbitrary functions on the record. -/
structure MegaUaefi (ρ : Type) where
  boardDefaultConfiguration : EngineConfiguration ρ → EngineConfiguration ρ
  boardConfigOverrides : EngineConfiguration ρ → EngineConfiguration ρ

/-- The program state: the global record, the two global hook pointers of
`board_overrides.h` (none when not registered), and the event trace. -/
structure Firmware (ρ : Type) where
  engineConfiguration : EngineConfiguration ρ
  custom_board_DefaultConfiguration : Option Proc
  custom_board_ConfigOverrides : Option Proc
  trace : List Event

/-- Execute the statement `engineConfiguration-><member> = <value>;` inside the
function `owner`. -/
def Firmware.assign {ρ : Type} (owner : Proc) (a : Assign) (s : Firmware ρ) :
    Firmware ρ :=
  { s with engineConfiguration := a.apply s.engineConfiguration
           trace := s.trace ++ [Event.assigned owner a] }

/-- Instrumented stub of the base-family default hook. -/
def setMegaUaefiBoardDefaultConfiguration {ρ : Type} (base : MegaUaefi ρ)
    (s : Firmware ρ) : Firmware ρ :=
  { s with engineConfiguration := base.boardDefaultConfiguration s.engineConfiguration
           trace := s.trace ++ [Event.called .setMegaUaefiBoardDefaultConfiguration] }

/-- Instrumented stub of the base-family override hook. -/
def setMegaUaefiBoardConfigOverrides {ρ : Type} (base : MegaUaefi ρ)
    (s : Firmware ρ) : Firmware ρ :=
  { s with engineConfiguration := base.boardConfigOverrides s.engineConfiguration
           trace := s.trace ++ [Event.called .setMegaUaefiBoardConfigOverrides] }

/-! ## The board file -/

/-- The function `customBoardConfigOverrides` (source lines 55 to 85). -/
def customBoardConfigOverrides {ρ : Type} (base : MegaUaefi ρ) (s : Firmware ρ) :
    Firmware ρ :=
  s |> setMegaUaefiBoardConfigOverrides base
    |> Firmware.assign .customBoardConfigOverrides (.isSdCardEnabled false)
    |> Firmware.assign .customBoardConfigOverrides (.is_enabled_spi_1 false)
    |> Firmware.assign .customBoardConfigOverrides (.spi1mosiPin Gpio.Unassigned)
    |> Firmware.assign .customBoardConfigOverrides (.spi1misoPin Gpio.Unassigned)
    |> Firmware.assign .customBoardConfigOverrides (.spi1sckPin Gpio.Unassigned)
    |> Firmware.assign .customBoardConfigOverrides (.sdCardCsPin Gpio.Unassigned)
    |> Firmware.assign .customBoardConfigOverrides
         (.lowPressureFuel_hwChannel adc_channel_e.MM100_IN_AUX3_ANALOG)

/-- The function `customBoardDefaultConfiguration` (source lines 88 to 156). -/
def customBoardDefaultConfiguration {ρ : Type} (base : MegaUaefi ρ) (s : Firmware ρ) :
    Firmware ρ :=
  s |> setMegaUaefiBoardDefaultConfiguration base
    |> Firmware.assign .customBoardDefaultConfiguration (.enableSoftwareKnock true)
    |> Firmware.assign .customBoardDefaultConfiguration (.is_enabled_spi_3 true)
    |> Firmware.assign .customBoardDefaultConfiguration (.spi3misoPin Gpio.C11)
    |> Firmware.assign .customBoardDefaultConfiguration (.spi3sckPin Gpio.C10)
    |> Firmware.assign .customBoardDefaultConfiguration (.max31855_cs 0 Gpio.A15)
    |> Firmware.assign .customBoardDefaultConfiguration
         (.max31855spiDevice spi_device_e.SPI_DEVICE_3)
    |> Firmware.assign .customBoardDefaultConfiguration
         (.injectionPins 0 Gpio.MM100_MEGA_UAEFI_INJ1)
    |> Firmware.assign .customBoardDefaultConfiguration (.injectionPins 1 Gpio.MM100_INJ2)
    |> Firmware.assign .customBoardDefaultConfiguration (.injectionPins 2 Gpio.MM100_INJ3)
    |> Firmware.assign .customBoardDefaultConfiguration (.injectionPins 3 Gpio.MM100_INJ4)
    |> Firmware.assign .customBoardDefaultConfiguration (.ignitionPins 0 Gpio.MM100_IGN7)
    |> Firmware.assign .customBoardDefaultConfiguration (.ignitionPins 1 Gpio.MM100_IGN1)
    |> Firmware.assign .customBoardDefaultConfiguration (.ignitionPins 2 Gpio.MM100_IGN2)
    |> Firmware.assign .customBoardDefaultConfiguration (.ignitionPins 3 Gpio.MM100_IGN3)
    |> Firmware.assign .customBoardDefaultConfiguration (.ignitionPins 4 Gpio.MM100_IGN4)
    |> Firmware.assign .customBoardDefaultConfiguration (.fuelPumpPin Gpio.MM100_OUT_PWM2)
    |> Firmware.assign .customBoardDefaultConfiguration (.idle_solenoidPin Gpio.MM100_INJ8)
    |> Firmware.assign .customBoardDefaultConfiguration (.tachOutputPin Gpio.MM100_IGN5)
    |> Firmware.assign .customBoardDefaultConfiguration
         (.triggerInputPins 0 Gpio.MM100_UART8_TX)
    |> Firmware.assign .customBoardDefaultConfiguration (.camInputs 0 Gpio.MM100_UART8_RX)
    |> Firmware.assign .customBoardDefaultConfiguration
         (.tps1_1AdcChannel adc_channel_e.MM100_IN_TPS_ANALOG)
    |> Firmware.assign .customBoardDefaultConfiguration
         (.map_sensor_hwChannel adc_channel_e.MM100_IN_MAP1_ANALOG)
    |> Firmware.assign .customBoardDefaultConfiguration
         (.clt_adcChannel adc_channel_e.MM100_IN_CLT_ANALOG)
    |> Firmware.assign .customBoardDefaultConfiguration
         (.iat_adcChannel adc_channel_e.MM100_IN_IAT_ANALOG)

/-- The static array `OUTPUTS` (source lines 158 to 176), in declaration order. -/
def OUTPUTS : List Gpio :=
  [ Gpio.MM100_MEGA_UAEFI_INJ1, -- 1 A1 INJ_1
    Gpio.MM100_INJ4, -- A2 INJ_4
    Gpio.MM100_INJ2, -- A3 INJ_2
    Gpio.MM100_INJ3, -- A5 INJ_3
    Gpio.MM100_OUT_PWM2, -- 5 Fuel Pump Relay
    Gpio.MM100_INJ8, -- A9 IAC
    Gpio.MM100_INJ7, -- A13 MIL
    Gpio.MM100_IGN7, -- A21 ICM Coil Control
    Gpio.MM100_IGN8, -- Radiator Fan Control Module
    Gpio.MM100_OUT_PWM1, -- 10 A/C compressor clutch relay
    Gpio.MM100_INJ6, -- IAB intake manifold butterflies solenoid
    Gpio.MM100_INJ5, -- EGR Solenoid
    Gpio.MM100_IGN6, -- VTEC Solenoid Valve
    Gpio.MM100_IGN4, -- Coil 4
    Gpio.MM100_IGN3, -- Coil 3
    Gpio.MM100_IGN2, -- Coil 2
    Gpio.MM100_IGN1 -- Coil 1
  ]

/-- Modelled from the spec: `efi::size` is a framework helper, not part of the
board file; it yields the number of elements of a C array. -/
def efi.size {α : Type} (arr : List α) : Nat :=
  arr.length

/-- Conversion of an unsigned size to the 32 bit signed `int` a C function
returns. -/
def toInt32 (n : Nat) : Int :=
  Int.bmod (n : Int) (2 ^ 32)

/-- The function `getBoardMetaOutputsCount` (source lines 178 to 180). -/
def getBoardMetaOutputsCount : Int :=
  toInt32 (efi.size OUTPUTS)

/-- The function `getBoardMetaLowSideOutputsCount` (source lines 182 to 184). -/
def getBoardMetaLowSideOutputsCount : Int :=
  getBoardMetaOutputsCount - 1

/-- The function `getBoardMetaOutputs` (source lines 186 to 188): the array
itself. -/
def getBoardMetaOutputs : List Gpio :=
  OUTPUTS

/-- The function `setup_custom_board_overrides` (source lines 190 to 195). -/
def setup_custom_board_overrides {ρ : Type} (s : Firmware ρ) : Firmware ρ :=
  let s := { s with custom_board_DefaultConfiguration :=
                      some Proc.customBoardDefaultConfiguration }
  { s with custom_board_ConfigOverrides := some Proc.customBoardConfigOverrides }

/-! ## The framework side of the hook protocol -/

/-- Call through a function pointer value. -/
def runProc {ρ : Type} (base : MegaUaefi ρ) : Proc → Firmware ρ → Firmware ρ
  | .setMegaUaefiBoardDefaultConfiguration => setMegaUaefiBoardDefaultConfiguration base
  | .setMegaUaefiBoardConfigOverrides => setMegaUaefiBoardConfigOverrides base
  | .customBoardDefaultConfiguration => customBoardDefaultConfiguration base
  | .customBoardConfigOverrides => customBoardConfigOverrides base

/-- Call a hook pointer if one is registered. -/
def callHook {ρ : Type} (base : MegaUaefi ρ) (hook : Option Proc) (s : Firmware ρ) :
    Firmware ρ :=
  match hook with
  | some p => runProc base p s
  | none => s

/-- Modelled from the spec: the framework startup path is not part of the board
file; it "calls, in order, the registered default-configuration hook then the
registered override hook". -/
def frameworkStartup {ρ : Type} (base : MegaUaefi ρ) (s : Firmware ρ) : Firmware ρ :=
  let s := callHook base s.custom_board_DefaultConfiguration s
  callHook base s.custom_board_ConfigOverrides s

/-! ## The base-family profile as static configuration -/

/-- One unconditional store of a constant into the record: into a member the
board file names, or into one of the unnamed members, which are then a table
indexed by `ι` with values in `ν`. -/
inductive Store (ι ν : Type) where
  | named (a : Assign)
  | unnamed (i : ι) (v : ν)

/-- The effect of one store on the record. -/
def Store.apply {ι ν : Type} [DecidableEq ι] (st : Store ι ν)
    (c : EngineConfiguration (ι → ν)) : EngineConfiguration (ι → ν) :=
  match st with
  | .named a => a.apply c
  | .unnamed i v => { c with rest := fun j => if j = i then v else c.rest j }

/-- The pin-valued members that `customBoardDefaultConfiguration` assigns, read
off a record: injectors 0 to 3, ignition 0 to 4, fuel pump, idle solenoid, tach,
trigger input 0, cam input 0, SPI3 MISO, SPI3 SCK, thermocouple chip select 0. -/
def assignedPins {ρ : Type} (c : EngineConfiguration ρ) : List Gpio :=
  [ c.injectionPins 0, c.injectionPins 1, c.injectionPins 2, c.injectionPins 3,
    c.ignitionPins 0, c.ignitionPins 1, c.ignitionPins 2, c.ignitionPins 3,
    c.ignitionPins 4, c.fuelPumpPin, c.idle.solenoidPin, c.tachOutputPin,
    c.triggerInputPins 0, c.camInputs 0, c.spi3misoPin, c.spi3sckPin,
    c.max31855_cs 0 ]

/-- The actuator output members that `customBoardDefaultConfiguration` assigns,
read off a record: injectors 0 to 3, ignition 0 to 4, fuel pump, idle solenoid,
tach. -/
def actuatorPins {ρ : Type} (c : EngineConfiguration ρ) : List Gpio :=
  [ c.injectionPins 0, c.injectionPins 1, c.injectionPins 2, c.injectionPins 3,
    c.ignitionPins 0, c.ignitionPins 1, c.ignitionPins 2, c.ignitionPins 3,
    c.ignitionPins 4, c.fuelPumpPin, c.idle.solenoidPin, c.tachOutputPin ]

/-- Two records agree on every member other than the seven that the PA7 conflict
resolution writes (`isSdCardEnabled`, `is_enabled_spi_1`, `spi1mosiPin`,
`spi1misoPin`, `spi1sckPin`, `sdCardCsPin`, `lowPressureFuel.hwChannel`). -/
def sameOutsidePA7 {ρ : Type} (c d : EngineConfiguration ρ) : Prop :=
  c.enableSoftwareKnock = d.enableSoftwareKnock ∧
  c.is_enabled_spi_3 = d.is_enabled_spi_3 ∧
  c.spi3misoPin = d.spi3misoPin ∧
  c.spi3sckPin = d.spi3sckPin ∧
  c.max31855_cs = d.max31855_cs ∧
  c.max31855spiDevice = d.max31855spiDevice ∧
  c.injectionPins = d.injectionPins ∧
  c.ignitionPins = d.ignitionPins ∧
  c.fuelPumpPin = d.fuelPumpPin ∧
  c.idle = d.idle ∧
  c.tachOutputPin = d.tachOutputPin ∧
  c.triggerInputPins = d.triggerInputPins ∧
  c.camInputs = d.camInputs ∧
  c.tps1_1AdcChannel = d.tps1_1AdcChannel ∧
  c.map = d.map ∧
  c.clt = d.clt ∧
  c.iat = d.iat ∧
  c.rest = d.rest

/-! ## Concrete inputs -/

/-- A record with every flag off, every pin unassigned and no channel bound. -/
def blankConfiguration : EngineConfiguration Unit :=
  { isSdCardEnabled := false
    is_enabled_spi_1 := false
    spi1mosiPin := Gpio.Unassigned
    spi1misoPin := Gpio.Unassigned
    spi1sckPin := Gpio.Unassigned
    sdCardCsPin := Gpio.Unassigned
    lowPressureFuel := { hwChannel := adc_channel_e.EFI_ADC_NONE }
    enableSoftwareKnock := false
    is_enabled_spi_3 := false
    spi3misoPin := Gpio.Unassigned
    spi3sckPin := Gpio.Unassigned
    max31855_cs := fun _ => Gpio.Unassigned
    max31855spiDevice := spi_device_e.SPI_NONE
    injectionPins := fun _ => Gpio.Unassigned
    ignitionPins := fun _ => Gpio.Unassigned
    fuelPumpPin := Gpio.Unassigned
    idle := { solenoidPin := Gpio.Unassigned }
    tachOutputPin := Gpio.Unassigned
    triggerInputPins := fun _ => Gpio.Unassigned
    camInputs := fun _ => Gpio.Unassigned
    tps1_1AdcChannel := adc_channel_e.EFI_ADC_NONE
    map := { sensor := { hwChannel := adc_channel_e.EFI_ADC_NONE } }
    clt := { adcChannel := adc_channel_e.EFI_ADC_NONE }
    iat := { adcChannel := adc_channel_e.EFI_ADC_NONE }
    rest := () }

/-- A freshly booted state: blank record, no hook registered, empty trace. -/
def blankFirmware : Firmware Unit :=
  { engineConfiguration := blankConfiguration
    custom_board_DefaultConfiguration := none
    custom_board_ConfigOverrides := none
    trace := [] }

/-- A base profile whose hooks leave the record alone. -/
def inertBase : MegaUaefi Unit :=
  { boardDefaultConfiguration := fun c => c
    boardConfigOverrides := fun c => c }

/-- Claim C1: for every starting state and every base-family override, after
`customBoardConfigOverrides` the SD card and SPI1 flags are false, the four SPI1
and SD card pins are all the unassigned sentinel, and the low pressure fuel
channel is `MM100_IN_AUX3_ANALOG`, which is not the channel sentinel. -/
theorem customBoardConfigOverrides_resolves_PA7 {ρ : Type} (base : MegaUaefi ρ)
    (s : Firmware ρ) :
    let c := (customBoardConfigOverrides base s).engineConfiguration
    c.isSdCardEnabled = false ∧ c.is_enabled_spi_1 = false ∧
    c.spi1mosiPin = Gpio.Unassigned ∧ c.spi1misoPin = Gpio.Unassigned ∧
    c.spi1sckPin = Gpio.Unassigned ∧ c.sdCardCsPin = Gpio.Unassigned ∧
    c.lowPressureFuel.hwChannel = adc_channel_e.MM100_IN_AUX3_ANALOG ∧
    c.lowPressureFuel.hwChannel ≠ adc_channel_e.EFI_ADC_NONE := by
  refine ⟨rfl, rfl, rfl, rfl, rfl, rfl, rfl, ?_⟩
  intro h
  cases h

/-- Claim C2: `getBoardMetaOutputsCount` is exactly the number of entries of the
list that `getBoardMetaOutputs` returns, and that number is 17. -/
theorem getBoardMetaOutputsCount_eq_length :
    getBoardMetaOutputsCount = (getBoardMetaOutputs.length : Int) ∧
    getBoardMetaOutputsCount = 17 := by
  decide

/-- Claim C3: `getBoardMetaLowSideOutputsCount` is the output count minus one,
which is 16 and not negative; every index below it is a valid index of
`OUTPUTS`; among the valid indices exactly index 16 lies outside the low-side
range, and it is the last entry, `MM100_IGN1`. -/
theorem getBoardMetaLowSideOutputsCount_spec :
    getBoardMetaLowSideOutputsCount = getBoardMetaOutputsCount - 1 ∧
    getBoardMetaLowSideOutputsCount = 16 ∧
    0 ≤ getBoardMetaLowSideOutputsCount ∧
    (∀ i : Nat, (i : Int) < getBoardMetaLowSideOutputsCount →
      ∃ pin, getBoardMetaOutputs[i]? = some pin) ∧
    (∀ i : Nat, i < getBoardMetaOutputs.length →
      (¬ (i : Int) < getBoardMetaLowSideOutputsCount ↔ i = 16)) ∧
    getBoardMetaOutputs[16]? = some Gpio.MM100_IGN1 ∧
    getBoardMetaOutputs.getLast? = some Gpio.MM100_IGN1 := by
  have h16 : getBoardMetaLowSideOutputsCount = 16 := by decide
  have hlen : getBoardMetaOutputs.length = 17 := by decide
  refine ⟨rfl, h16, by decide, ?_, ?_, by decide, by decide⟩
  · intro i hi
    rw [h16] at hi
    have hi17 : i < getBoardMetaOutputs.length := by omega
    exact ⟨getBoardMetaOutputs[i], List.getElem?_eq_getElem hi17⟩
  · intro i hi
    rw [h16]
    omega

/-- Witness for claim C3 at index 15, the last low-side index. -/
theorem getBoardMetaLowSideOutputsCount_spec_witness :
    ((15 : Nat) : Int) < getBoardMetaLowSideOutputsCount ∧
    ∃ pin, getBoardMetaOutputs[15]? = some pin :=
  ⟨by decide, getBoardMetaLowSideOutputsCount_spec.2.2.2.1 15 (by decide)⟩

/-- Claim C10: below the output count no two different indices of the declared
list hold the same pin identifier; `getBoardMetaOutputs` returns the array
`OUTPUTS` itself, entry for entry in the declaration order of the source, so
index 0 holds `MM100_MEGA_UAEFI_INJ1`. -/
theorem OUTPUTS_distinct (i j : Nat) (hi : (i : Int) < getBoardMetaOutputsCount)
    (hj : (j : Int) < getBoardMetaOutputsCount) (hij : i ≠ j) :
    getBoardMetaOutputs[i]? ≠ getBoardMetaOutputs[j]? ∧
    getBoardMetaOutputs[i]? = OUTPUTS[i]? ∧
    getBoardMetaOutputs = OUTPUTS ∧
    getBoardMetaOutputs =
      [ Gpio.MM100_MEGA_UAEFI_INJ1, Gpio.MM100_INJ4, Gpio.MM100_INJ2, Gpio.MM100_INJ3,
        Gpio.MM100_OUT_PWM2, Gpio.MM100_INJ8, Gpio.MM100_INJ7, Gpio.MM100_IGN7,
        Gpio.MM100_IGN8, Gpio.MM100_OUT_PWM1, Gpio.MM100_INJ6, Gpio.MM100_INJ5,
        Gpio.MM100_IGN6, Gpio.MM100_IGN4, Gpio.MM100_IGN3, Gpio.MM100_IGN2,
        Gpio.MM100_IGN1 ] ∧
    getBoardMetaOutputs[0]? = some Gpio.MM100_MEGA_UAEFI_INJ1 := by
  have hc : getBoardMetaOutputsCount = 17 := by decide
  rw [hc] at hi hj
  have hi17 : i < 17 := by omega
  have hj17 : j < 17 := by omega
  refine ⟨?_, rfl, rfl, rfl, by decide⟩
  interval_cases i <;> interval_cases j <;> first | exact absurd rfl hij | decide

/-- Witness for claim C10 at the first and the last index. -/
theorem OUTPUTS_distinct_witness :
    ((0 : Nat) : Int) < getBoardMetaOutputsCount ∧
    ((16 : Nat) : Int) < getBoardMetaOutputsCount ∧
    getBoardMetaOutputs[0]? ≠ getBoardMetaOutputs[16]? ∧
    getBoardMetaOutputs[0]? = OUTPUTS[0]? ∧
    getBoardMetaOutputs = OUTPUTS ∧
    getBoardMetaOutputs =
      [ Gpio.MM100_MEGA_UAEFI_INJ1, Gpio.MM100_INJ4, Gpio.MM100_INJ2, Gpio.MM100_INJ3,
        Gpio.MM100_OUT_PWM2, Gpio.MM100_INJ8, Gpio.MM100_INJ7, Gpio.MM100_IGN7,
        Gpio.MM100_IGN8, Gpio.MM100_OUT_PWM1, Gpio.MM100_INJ6, Gpio.MM100_INJ5,
        Gpio.MM100_IGN6, Gpio.MM100_IGN4, Gpio.MM100_IGN3, Gpio.MM100_IGN2,
        Gpio.MM100_IGN1 ] ∧
    getBoardMetaOutputs[0]? = some Gpio.MM100_MEGA_UAEFI_INJ1 :=
  ⟨by decide, by decide, OUTPUTS_distinct 0 16 (by decide) (by decide) (by decide)⟩

/-- Claim C6: for every starting state and every base-family default hook,
after `customBoardDefaultConfiguration` the record holds each of the 24 values
that the board file assigns. -/
theorem customBoardDefaultConfiguration_assigns {ρ : Type} (base : MegaUaefi ρ)
    (s : Firmware ρ) :
    let c := (customBoardDefaultConfiguration base s).engineConfiguration
    c.enableSoftwareKnock = true ∧ c.is_enabled_spi_3 = true ∧
    c.spi3misoPin = Gpio.C11 ∧ c.spi3sckPin = Gpio.C10 ∧
    c.max31855_cs 0 = Gpio.A15 ∧
    c.max31855spiDevice = spi_device_e.SPI_DEVICE_3 ∧
    c.injectionPins 0 = Gpio.MM100_MEGA_UAEFI_INJ1 ∧
    c.injectionPins 1 = Gpio.MM100_INJ2 ∧
    c.injectionPins 2 = Gpio.MM100_INJ3 ∧
    c.injectionPins 3 = Gpio.MM100_INJ4 ∧
    c.ignitionPins 0 = Gpio.MM100_IGN7 ∧
    c.ignitionPins 1 = Gpio.MM100_IGN1 ∧
    c.ignitionPins 2 = Gpio.MM100_IGN2 ∧
    c.ignitionPins 3 = Gpio.MM100_IGN3 ∧
    c.ignitionPins 4 = Gpio.MM100_IGN4 ∧
    c.fuelPumpPin = Gpio.MM100_OUT_PWM2 ∧
    c.idle.solenoidPin = Gpio.MM100_INJ8 ∧
    c.tachOutputPin = Gpio.MM100_IGN5 ∧
    c.triggerInputPins 0 = Gpio.MM100_UART8_TX ∧
    c.camInputs 0 = Gpio.MM100_UART8_RX ∧
    c.tps1_1AdcChannel = adc_channel_e.MM100_IN_TPS_ANALOG ∧
    c.map.sensor.hwChannel = adc_channel_e.MM100_IN_MAP1_ANALOG ∧
    c.clt.adcChannel = adc_channel_e.MM100_IN_CLT_ANALOG ∧
    c.iat.adcChannel = adc_channel_e.MM100_IN_IAT_ANALOG := by
  refine ⟨rfl, rfl, rfl, rfl, rfl, rfl, rfl, rfl, rfl, rfl, rfl, rfl, rfl, rfl, rfl,
    rfl, rfl, rfl, rfl, rfl, rfl, rfl, rfl, rfl⟩

/-- The pins that the default hook leaves in the assigned members, whatever the
base profile and the starting state. -/
lemma assignedPins_customBoardDefaultConfiguration {ρ : Type} (base : MegaUaefi ρ)
    (s : Firmware ρ) :
    assignedPins (customBoardDefaultConfiguration base s).engineConfiguration =
      [ Gpio.MM100_MEGA_UAEFI_INJ1, Gpio.MM100_INJ2, Gpio.MM100_INJ3, Gpio.MM100_INJ4,
        Gpio.MM100_IGN7, Gpio.MM100_IGN1, Gpio.MM100_IGN2, Gpio.MM100_IGN3,
        Gpio.MM100_IGN4, Gpio.MM100_OUT_PWM2, Gpio.MM100_INJ8, Gpio.MM100_IGN5,
        Gpio.MM100_UART8_TX, Gpio.MM100_UART8_RX, Gpio.C11, Gpio.C10, Gpio.A15 ] :=
  rfl

/-- Claim C7: for every starting state and every base-family default hook, the
17 pin identifiers that `customBoardDefaultConfiguration` leaves in the pin
members it assigns are pairwise distinct. -/
theorem customBoardDefaultConfiguration_pins_distinct {ρ : Type}
    (base : MegaUaefi ρ) (s : Firmware ρ) :
    let pins := assignedPins (customBoardDefaultConfiguration base s).engineConfiguration
    pins.length = 17 ∧ pins.Nodup := by
  intro pins
  have h := assignedPins_customBoardDefaultConfiguration base s
  refine ⟨rfl, ?_⟩
  show (assignedPins (customBoardDefaultConfiguration base s).engineConfiguration).Nodup
  rw [h]
  decide

/-- Claim C5: `setup_custom_board_overrides` registers
`customBoardDefaultConfiguration` as the default hook and
`customBoardConfigOverrides` as the override hook, and running the registered
default hook and then the registered override hook appends to the trace, in this
order: the base default call, the 24 board default assignments, the base
override call, the 7 board override assignments. -/
theorem hook_order {ρ : Type} (base : MegaUaefi ρ) (s : Firmware ρ) :
    (setup_custom_board_overrides s).custom_board_DefaultConfiguration
      = some Proc.customBoardDefaultConfiguration ∧
    (setup_custom_board_overrides s).custom_board_ConfigOverrides
      = some Proc.customBoardConfigOverrides ∧
    (frameworkStartup base (setup_custom_board_overrides s)).trace = s.trace ++
      ([ Event.called .setMegaUaefiBoardDefaultConfiguration ] ++
       List.map (Event.assigned .customBoardDefaultConfiguration)
        [ .enableSoftwareKnock true, .is_enabled_spi_3 true, .spi3misoPin Gpio.C11,
          .spi3sckPin Gpio.C10, .max31855_cs 0 Gpio.A15,
          .max31855spiDevice spi_device_e.SPI_DEVICE_3,
          .injectionPins 0 Gpio.MM100_MEGA_UAEFI_INJ1, .injectionPins 1 Gpio.MM100_INJ2,
          .injectionPins 2 Gpio.MM100_INJ3, .injectionPins 3 Gpio.MM100_INJ4,
          .ignitionPins 0 Gpio.MM100_IGN7, .ignitionPins 1 Gpio.MM100_IGN1,
          .ignitionPins 2 Gpio.MM100_IGN2, .ignitionPins 3 Gpio.MM100_IGN3,
          .ignitionPins 4 Gpio.MM100_IGN4, .fuelPumpPin Gpio.MM100_OUT_PWM2,
          .idle_solenoidPin Gpio.MM100_INJ8, .tachOutputPin Gpio.MM100_IGN5,
          .triggerInputPins 0 Gpio.MM100_UART8_TX, .camInputs 0 Gpio.MM100_UART8_RX,
          .tps1_1AdcChannel adc_channel_e.MM100_IN_TPS_ANALOG,
          .map_sensor_hwChannel adc_channel_e.MM100_IN_MAP1_ANALOG,
          .clt_adcChannel adc_channel_e.MM100_IN_CLT_ANALOG,
          .iat_adcChannel adc_channel_e.MM100_IN_IAT_ANALOG ] ++
       [ Event.called .setMegaUaefiBoardConfigOverrides ] ++
       List.map (Event.assigned .customBoardConfigOverrides)
        [ .isSdCardEnabled false, .is_enabled_spi_1 false,
          .spi1mosiPin Gpio.Unassigned, .spi1misoPin Gpio.Unassigned,
          .spi1sckPin Gpio.Unassigned, .sdCardCsPin Gpio.Unassigned,
          .lowPressureFuel_hwChannel adc_channel_e.MM100_IN_AUX3_ANALOG ]) := by
  refine ⟨rfl, rfl, ?_⟩
  simp [frameworkStartup, callHook, runProc, setup_custom_board_overrides,
    customBoardDefaultConfiguration, customBoardConfigOverrides, Firmware.assign,
    setMegaUaefiBoardDefaultConfiguration, setMegaUaefiBoardConfigOverrides]

/-- The board part of the override hook leaves every member outside the seven
PA7 members as the base-family override left it. -/
lemma customBoardConfigOverrides_frame {ρ : Type} (base : MegaUaefi ρ)
    (s : Firmware ρ) :
    sameOutsidePA7 (customBoardConfigOverrides base s).engineConfiguration
      (base.boardConfigOverrides s.engineConfiguration) :=
  ⟨rfl, rfl, rfl, rfl, rfl, rfl, rfl, rfl, rfl, rfl, rfl, rfl, rfl, rfl, rfl, rfl,
    rfl, rfl⟩

/-- Claim C9: whatever the record the base-family override leaves, the rest of
`customBoardConfigOverrides` appends exactly seven assignment events, leaves
every member outside the seven PA7 members as the base-family override left
it, and the only feature flag values it writes are two writes of false. -/
theorem customBoardConfigOverrides_frame_effect {ρ : Type} (base : MegaUaefi ρ)
    (s : Firmware ρ) :
    let afterBase := setMegaUaefiBoardConfigOverrides base s
    let final := customBoardConfigOverrides base s
    let writes : List Assign :=
      [ .isSdCardEnabled false, .is_enabled_spi_1 false,
        .spi1mosiPin Gpio.Unassigned, .spi1misoPin Gpio.Unassigned,
        .spi1sckPin Gpio.Unassigned, .sdCardCsPin Gpio.Unassigned,
        .lowPressureFuel_hwChannel adc_channel_e.MM100_IN_AUX3_ANALOG ]
    sameOutsidePA7 final.engineConfiguration afterBase.engineConfiguration ∧
    final.trace =
      afterBase.trace ++ writes.map (Event.assigned .customBoardConfigOverrides) ∧
    writes.filterMap Assign.flagValue = [false, false] ∧
    final.custom_board_DefaultConfiguration = s.custom_board_DefaultConfiguration ∧
    final.custom_board_ConfigOverrides = s.custom_board_ConfigOverrides := by
  refine ⟨customBoardConfigOverrides_frame base s, ?_, rfl, rfl, rfl⟩
  simp [customBoardConfigOverrides, Firmware.assign, setMegaUaefiBoardConfigOverrides]

/-- Counterexample for claim C8 as stated: from the blank state with an inert
base profile, not every actuator pin that the default hook assigns is an entry
of the declared list; the tach pin `MM100_IGN5` is missing from it. -/
theorem actuatorPins_not_all_declared :
    ¬ (∀ pin ∈ actuatorPins
          (customBoardDefaultConfiguration inertBase blankFirmware).engineConfiguration,
        pin ∈ getBoardMetaOutputs) ∧
    (customBoardDefaultConfiguration inertBase blankFirmware).engineConfiguration.tachOutputPin
      ∉ getBoardMetaOutputs := by
  decide

/-- Claim C8, amended: for every starting state and every base-family default
hook, the pins that `customBoardDefaultConfiguration` leaves in injectors 0 to
3, ignition 0 to 4, the fuel pump and the idle solenoid are entries of the
declared list, while the tach pin it assigns, `MM100_IGN5`, is not. -/
theorem actuatorPins_declared_except_tach {ρ : Type} (base : MegaUaefi ρ)
    (s : Firmware ρ) :
    let c := (customBoardDefaultConfiguration base s).engineConfiguration
    c.injectionPins 0 ∈ getBoardMetaOutputs ∧ c.injectionPins 1 ∈ getBoardMetaOutputs ∧
    c.injectionPins 2 ∈ getBoardMetaOutputs ∧ c.injectionPins 3 ∈ getBoardMetaOutputs ∧
    c.ignitionPins 0 ∈ getBoardMetaOutputs ∧ c.ignitionPins 1 ∈ getBoardMetaOutputs ∧
    c.ignitionPins 2 ∈ getBoardMetaOutputs ∧ c.ignitionPins 3 ∈ getBoardMetaOutputs ∧
    c.ignitionPins 4 ∈ getBoardMetaOutputs ∧ c.fuelPumpPin ∈ getBoardMetaOutputs ∧
    c.idle.solenoidPin ∈ getBoardMetaOutputs ∧
    c.tachOutputPin = Gpio.MM100_IGN5 ∧ c.tachOutputPin ∉ getBoardMetaOutputs := by
  intro c
  have hi0 : c.injectionPins 0 = Gpio.MM100_MEGA_UAEFI_INJ1 := rfl
  have hi1 : c.injectionPins 1 = Gpio.MM100_INJ2 := rfl
  have hi2 : c.injectionPins 2 = Gpio.MM100_INJ3 := rfl
  have hi3 : c.injectionPins 3 = Gpio.MM100_INJ4 := rfl
  have hg0 : c.ignitionPins 0 = Gpio.MM100_IGN7 := rfl
  have hg1 : c.ignitionPins 1 = Gpio.MM100_IGN1 := rfl
  have hg2 : c.ignitionPins 2 = Gpio.MM100_IGN2 := rfl
  have hg3 : c.ignitionPins 3 = Gpio.MM100_IGN3 := rfl
  have hg4 : c.ignitionPins 4 = Gpio.MM100_IGN4 := rfl
  have hfp : c.fuelPumpPin = Gpio.MM100_OUT_PWM2 := rfl
  have hid : c.idle.solenoidPin = Gpio.MM100_INJ8 := rfl
  have htach : c.tachOutputPin = Gpio.MM100_IGN5 := rfl
  rw [hi0, hi1, hi2, hi3, hg0, hg1, hg2, hg3, hg4, hfp, hid, htach]
  decide

end HondaObd1
